import Mathlib

/-!
Verification of the bdtime-web network/NTP backend.

This file contains a shallow embedding, in Lean 4, of the parts of the
Python code base that the verified properties talk about:

* `src/models/network_models.py` (the `Route` and `NetworkInterface` records),
* `src/utils/config_parser.py` (the systemd-networkd config codec),
* `src/utils/validators.py` (the network configuration validator),
* `src/ntp_worker.py` (the packet pairing state machine and the NTP
  timestamp rendering of `SingleInterfaceNTPAnalyzer`),
* `src/models/ntp_models.py` (the `NTPClient` row and its two
  constructors from ingested session data),
* `src/services/ntp_data_ingestion_service.py` (batch upsert, retention
  cleanup and the read query helpers), and
* `src/routes/ntp_history_routes.py` (the history HTTP handlers).

Conventions used throughout the embedding:

* Python strings are Lean `String`s.  The Python string primitives used by
  the code (`lower`, `strip`, `split`, `startswith`, membership tests and
  the key-value regular expressions of the codec) are re-implemented over
  `String.data` by structural recursion so that all definitions evaluate
  inside the kernel.
* Python `datetime` values and the worker capture times (`time.time()`
  floats) are modelled as integers; only their ordering and differences
  matter to the code under verification.  `timedelta(days=d)` becomes
  `d * 86400` seconds.
* A Python value that may be absent from a dict is an `Option`; `dict.get`
  with a default becomes `Option.getD`.
* Functions that swallow exceptions receive the outcome of the fallible
  operation as an `Except` argument and are proved to map the error case
  to their documented fallback value.
-/

/-! ## Python string primitives (re-implemented to be kernel-reducible) -/

namespace PyStr

/-- ASCII lower-casing of one character (`str.lower` on the ASCII range,
which is all the code ever feeds it). -/
def asciiLowerChar (c : Char) : Char :=
  if 'A' ≤ c ∧ c ≤ 'Z' then Char.ofNat (c.toNat + 32) else c

/-- `str.lower`. -/
def lower (s : String) : String := ⟨s.data.map asciiLowerChar⟩

/-- The character class of Python `str.strip` / regex `\s`. -/
def isPyWs (c : Char) : Bool :=
  c = ' ' ∨ c = '\t' ∨ c = '\n' ∨ c = '\x0b' ∨ c = '\x0c' ∨ c = '\r'

/-- `str.strip()` on a character list. -/
def trimChars (l : List Char) : List Char :=
  ((l.dropWhile isPyWs).reverse.dropWhile isPyWs).reverse

/-- `str.strip()`. -/
def trim (s : String) : String := ⟨trimChars s.data⟩

/-- Split a character list at every occurrence of `sep` (keeping empties),
as Python `str.split(sep)` does. -/
def splitOnChar (sep : Char) : List Char → List (List Char)
  | [] => [[]]
  | c :: rest =>
    let r := splitOnChar sep rest
    if c = sep then [] :: r
    else
      match r with
      | [] => [[c]]
      | g :: gs => (c :: g) :: gs

/-- Split a string into its lines (`content.split("\n")` view of the text;
the codec regexes operate line by line under `re.MULTILINE`). -/
def splitLines (s : String) : List String :=
  (splitOnChar '\n' s.data).map String.mk

/-- Python `str.split()` with no argument: split on runs of whitespace and
drop empty tokens. -/
def splitWs (s : String) : List String :=
  (((splitOnChar ' ' (s.data.map (fun c => if isPyWs c then ' ' else c))).map
      String.mk).filter (fun t => t ≠ ""))

/-- `str.startswith`. -/
def startsWith (s pre : String) : Bool := pre.data.isPrefixOf s.data

/-- `c in s` for a single character. -/
def containsChar (s : String) (c : Char) : Bool := s.data.contains c

/-- Python truthiness of a string: non-empty. -/
def truthy (s : String) : Bool := s ≠ ""

end PyStr

/-! ## `src/models/network_models.py` -/

namespace NetworkModels

/-- `Route` dataclass (`network_models.py` lines 5-9).  `dev` has default
`None`; the generated dataclass equality compares all three fields. -/
structure Route where
  destination : String
  gateway : String
  dev : Option String := none
deriving DecidableEq

/-- The `__eq__` generated for the `Route` dataclass: field-by-field
comparison of `destination`, `gateway` and `dev`. -/
def routeDataclassEq (a b : Route) : Bool :=
  a.destination = b.destination ∧ a.gateway = b.gateway ∧ a.dev = b.dev

/-- `NetworkInterface` dataclass (`network_models.py` lines 12-23). -/
structure NetworkInterface where
  interface_name : String
  config_file : Option String := none
  ipv4_addresses : List String := []
  ipv6_addresses : List String := []
  ipv4_gateway : Option String := none
  ipv6_gateway : Option String := none
  dns : List String := []
  systemd_networkd_routes : List Route := []
  active_system_routes : List Route := []
  status : String := "unconfigured"
deriving DecidableEq

end NetworkModels

/-! ## `src/utils/config_parser.py` -/

namespace ConfigParser

open PyStr NetworkModels

/-- `should_exclude_systemd_route` (`config_parser.py` lines 18-73). -/
def should_exclude_systemd_route (destination gateway : String) : Bool :=
  let excluded_destinations :=
    ["multicast", "broadcast", "local", "unreachable", "prohibit",
     "blackhole", "throw"]
  let excluded_gateways := ["none", "", "0.0.0.0", "::", "null"]
  if (lower destination) ∈ excluded_destinations then true
  else if startsWith (lower destination) "fe80::/64" then true
  else if startsWith destination "224.0.0.0/" ∨ startsWith (lower destination) "ff00::/" then true
  else if truthy gateway ∧ (lower gateway) ∈ excluded_gateways then true
  else if startsWith destination "127.0.0.0/" ∨ startsWith (lower destination) "::1/" then true
  else if startsWith destination "169.254.0.0/" ∨ startsWith (lower destination) "fe80::/" then true
  else false

/-- One attempt of the key-value regex `key\s*=\s*(.+)` at the start of
`cs`: skip whitespace after `key`, require `=`, skip whitespace and return
the (non-empty) remainder of the line. -/
def kvTail (cs : List Char) : Option (List Char) :=
  match cs.dropWhile isPyWs with
  | '=' :: rest =>
    match rest.dropWhile isPyWs with
    | [] => none
    | value => some value
  | _ => none

/-- `re.search(key + "\s*=\s*(.+)", line)`: the regex engine tries every
start position left to right; the captured group runs to the end of the
line. -/
def kvSearchChars (key : List Char) : List Char → Option (List Char)
  | [] => none
  | c :: rest =>
    if key.isPrefixOf (c :: rest) then
      match kvTail ((c :: rest).drop key.length) with
      | some v => some v
      | none => kvSearchChars key rest
    else kvSearchChars key rest

/-- First match of `key\s*=\s*(.+)` in a line, with the captured value
`.strip()`-ed as every caller in `parse_network_file` does. -/
def kvMatch (key line : String) : Option String :=
  (kvSearchChars key.data line.data).map (fun v => String.mk (trimChars v))

/-- First `some` produced by `f` over a list of lines: the first regex
match when a section body is scanned top to bottom. -/
def firstMatch (f : String → Option String) : List String → Option String
  | [] => none
  | l :: rest =>
    match f l with
    | some v => some v
    | none => firstMatch f rest

/-- The body captured by `((?:\n[^[]+)*)` after a section header: the
following lines up to the first line containing `[` (in the generated
format `[` only ever starts a section header line). -/
def sectionBody (ls : List String) : List String :=
  ls.takeWhile (fun l => ¬ containsChar l '[')

/-- Lines after the first occurrence of the exact header line `header`
(the `^\[...\]$` multiline regexes), or `none` if the header is absent. -/
def afterHeader (header : String) : List String → Option (List String)
  | [] => none
  | l :: rest => if l = header then some rest else afterHeader header rest

/-- All `[Route]` section bodies (`re.finditer`): one body per occurrence
of a `[Route]` header line. -/
def routeBodies : List String → List (List String)
  | [] => []
  | l :: rest =>
    if l = "[Route]" then sectionBody rest :: routeBodies rest
    else routeBodies rest

/-- The parsed configuration dict built by `parse_network_file`
(`config_parser.py` lines 104-112); a parsed route is its
`{destination, gateway}` dict. -/
structure ParsedConfig where
  ipv4_addresses : List String
  ipv6_addresses : List String
  ipv4_gateway : Option String
  ipv6_gateway : Option String
  dns : List String
  systemd_networkd_routes : List (String × String)
deriving DecidableEq

/-- Classify the `Address=` lines of the `[Network]` body in file order
(`config_parser.py` lines 120-125): a colon means IPv6. -/
def classifyAddresses (values : List String) : List String × List String :=
  values.foldl
    (fun acc address =>
      if containsChar address ':' then (acc.1, acc.2 ++ [address])
      else (acc.1 ++ [address], acc.2))
    ([], [])

/-- Fold the `Gateway=` lines of the `[Network]` body (lines 128-133):
the matching family gateway is assigned, last occurrence winning. -/
def assignGateways (values : List String) : Option String × Option String :=
  values.foldl
    (fun acc gateway =>
      if containsChar gateway ':' then (acc.1, some gateway)
      else (some gateway, acc.2))
    (none, none)

/-- Parse one `[Route]` body (lines 141-159): both `Destination=` and
`Gateway=` are required and the exclusion predicate drops the route. -/
def parseRouteBody (body : List String) : Option (String × String) :=
  match firstMatch (kvMatch "Destination") body, firstMatch (kvMatch "Gateway") body with
  | some destination, some gateway =>
    if should_exclude_systemd_route destination gateway then none
    else some (destination, gateway)
  | _, _ => none

/-- `parse_network_file` (`config_parser.py` lines 76-163), applied to the
text of the file.  The file read itself is the OS boundary; malformed
input yields `(none, none)`. -/
def parse_network_file (content : String) : Option String × Option ParsedConfig :=
  let ls := splitLines content
  match afterHeader "[Match]" ls with
  | none => (none, none)
  | some afterMatch =>
    match firstMatch (kvMatch "Name") (sectionBody afterMatch) with
    | none => (none, none)
    | some interface_name =>
      let networkBody :=
        match afterHeader "[Network]" ls with
        | none => []
        | some rest => sectionBody rest
      let addresses := networkBody.filterMap (kvMatch "Address")
      let (ipv4_addresses, ipv6_addresses) := classifyAddresses addresses
      let (ipv4_gateway, ipv6_gateway) :=
        assignGateways (networkBody.filterMap (kvMatch "Gateway"))
      let dns := (networkBody.filterMap (kvMatch "DNS")).flatMap splitWs
      let routes := (routeBodies ls).filterMap parseRouteBody
      (some interface_name,
       some { ipv4_addresses := ipv4_addresses,
              ipv6_addresses := ipv6_addresses,
              ipv4_gateway := ipv4_gateway,
              ipv6_gateway := ipv6_gateway,
              dns := dns,
              systemd_networkd_routes := routes })

/-- `generate_network_config` (`config_parser.py` lines 166-213). -/
def generate_network_config (interface : NetworkInterface) : String :=
  let config_content :=
    ["[Match]", "Name=" ++ interface.interface_name, "", "[Network]"]
    ++ interface.ipv4_addresses.map (fun addr => "Address=" ++ addr)
    ++ interface.ipv6_addresses.map (fun addr => "Address=" ++ addr)
    ++ (match interface.ipv4_gateway with
        | some g => ["Gateway=" ++ g]
        | none => [])
    ++ (match interface.ipv6_gateway with
        | some g => ["Gateway=" ++ g]
        | none => [])
    ++ interface.dns.map (fun dns => "DNS=" ++ dns)
    ++ interface.systemd_networkd_routes.flatMap (fun route =>
        if ¬ should_exclude_systemd_route route.destination route.gateway then
          ["", "[Route]", "Destination=" ++ route.destination,
           "Gateway=" ++ route.gateway]
        else [])
  String.intercalate "\n" config_content ++ "\n"

end ConfigParser

/-! ## `src/utils/validators.py`

The validator rests on the standard `ipaddress` module.  The textual
address grammar that module implements is embedded below for the forms the
repository can produce: dotted-quad IPv4 (no leading zeros, octets up to
255), colon-separated IPv6 hextets with at most one `::` compression, and
a decimal prefix length.  Dotted-netmask prefix forms and the embedded
IPv4-in-IPv6 notation, which no caller in the repository uses, are not
modelled. -/

namespace Validators

open PyStr

def isDigitChar (c : Char) : Bool := '0' ≤ c ∧ c ≤ '9'

def isHexChar (c : Char) : Bool :=
  ('0' ≤ c ∧ c ≤ '9') ∨ ('a' ≤ c ∧ c ≤ 'f') ∨ ('A' ≤ c ∧ c ≤ 'F')

def hexVal (c : Char) : Nat :=
  if '0' ≤ c ∧ c ≤ '9' then c.toNat - '0'.toNat
  else if 'a' ≤ c ∧ c ≤ 'f' then c.toNat - 'a'.toNat + 10
  else c.toNat - 'A'.toNat + 10

/-- A decimal token: non-empty, all digits. -/
def parseDecimal? (cs : List Char) : Option Nat :=
  if cs ≠ [] ∧ cs.all isDigitChar then
    some (cs.foldl (fun acc c => acc * 10 + (c.toNat - '0'.toNat)) 0)
  else none

/-- One IPv4 octet as `ipaddress` accepts it: 1-3 digits, no leading zero
on a multi-digit octet, value at most 255. -/
def parseOctet? (cs : List Char) : Option Nat :=
  match parseDecimal? cs with
  | none => none
  | some v =>
    if cs.length ≤ 3 ∧ (cs.length = 1 ∨ cs.headD '0' ≠ '0') ∧ v ≤ 255 then some v
    else none

/-- The integer value of a dotted-quad IPv4 address, if well-formed. -/
def parseIPv4? (s : String) : Option Nat :=
  match (splitOnChar '.' s.data).mapM parseOctet? with
  | some [a, b, c, d] => some (a * 16777216 + b * 65536 + c * 256 + d)
  | _ => none

/-- One IPv6 hextet: 1-4 hex digits. -/
def parseHextet? (cs : List Char) : Option Nat :=
  if cs ≠ [] ∧ cs.length ≤ 4 ∧ cs.all isHexChar then
    some (cs.foldl (fun acc c => acc * 16 + hexVal c) 0)
  else none

/-- Positions `1 .. n-2` of the part list holding an empty part: the
candidate `::` skip positions of the `ipaddress` IPv6 parser. -/
def innerEmptyIndices (parts : List (List Char)) : List Nat :=
  (List.range parts.length).filter
    (fun i => 0 < i ∧ i + 1 < parts.length ∧ parts.getD i ['x'] = [])

/-- The integer value of an IPv6 address, following the structure of
`ipaddress._ip_int_from_string`: split on `:`, locate at most one interior
`::`, check the group counts on each side and that `::` stands for at
least one zero group, and fold the hextets. -/
def parseIPv6? (s : String) : Option Nat :=
  let parts := splitOnChar ':' s.data
  if parts.length < 3 then none
  else
    match innerEmptyIndices parts with
    | [] =>
      if parts.length = 8 then
        match parts.mapM parseHextet? with
        | some hs => some (hs.foldl (fun acc h => acc * 65536 + h) 0)
        | none => none
      else none
    | [skip] =>
      let hi0 := parts.take skip
      let lo0 := parts.drop (skip + 1)
      let hi := if hi0 = [[]] then [] else hi0
      let lo := if lo0 = [[]] then [] else lo0
      if hi0.contains [] ∧ hi ≠ [] then none
      else if lo0.contains [] ∧ lo ≠ [] then none
      else if hi.length + lo.length ≥ 8 then none
      else
        match hi.mapM parseHextet?, lo.mapM parseHextet? with
        | some hhs, some lhs =>
          let groups := hhs ++ List.replicate (8 - (hi.length + lo.length)) 0 ++ lhs
          some (groups.foldl (fun acc h => acc * 65536 + h) 0)
        | _, _ => none
    | _ => none

/-- A prefix length token: all digits, value at most `maxBits`. -/
def parsePrefix? (s : String) (maxBits : Nat) : Option Nat :=
  match parseDecimal? s.data with
  | some v => if v ≤ maxBits then some v else none
  | none => none

/-- `ipaddress.ip_network(text, strict)` succeeds: the text splits into an
address and at most one prefix, the pair is a well-formed IPv4 or IPv6
network, and under `strict=True` the host bits are zero. -/
def ip_network_ok (s : String) (strict : Bool) : Bool :=
  match (splitOnChar '/' s.data).map String.mk with
  | [addr] =>
    (parseIPv4? addr).isSome ∨ (parseIPv6? addr).isSome
  | [addr, prefixPart] =>
    (match parseIPv4? addr, parsePrefix? prefixPart 32 with
     | some v, some p => !strict || decide (v % 2 ^ (32 - p) = 0)
     | _, _ => false)
    ||
    (match parseIPv6? addr, parsePrefix? prefixPart 128 with
     | some v, some p => !strict || decide (v % 2 ^ (128 - p) = 0)
     | _, _ => false)
  | _ => false

/-- `ipaddress.ip_address(text)` succeeds: a bare IPv4 or IPv6 address. -/
def ip_address_ok (s : String) : Bool :=
  (parseIPv4? s).isSome ∨ (parseIPv6? s).isSome

/-- `validate_ip_address` (`validators.py` lines 6-26). -/
def validate_ip_address (ip : String) : Bool :=
  let test_ip :=
    if ¬ containsChar ip '/' then
      if ¬ containsChar ip ':' then ip ++ "/32" else ip ++ "/128"
    else ip
  ip_network_ok test_ip false

/-- A route dict as received by `validate_route`; an absent key is
`none`. -/
structure PyRouteDict where
  destination : Option String
  gateway : Option String
deriving DecidableEq

/-- The apostrophe character, used by the Python dict `repr`. -/
def sq : Char := Char.ofNat 39

/-- The Python `repr` of a route dict as interpolated into the route
error message, with keys in their construction order. -/
def pyRouteRepr (route : PyRouteDict) : String :=
  let q := String.mk [sq]
  let entry := fun (k : String) (v : String) => q ++ k ++ q ++ ": " ++ q ++ v ++ q
  let entries :=
    (match route.destination with
     | some d => [entry "destination" d]
     | none => [])
    ++
    (match route.gateway with
     | some g => [entry "gateway" g]
     | none => [])
  "\x7b" ++ String.intercalate ", " entries ++ "\x7d"

/-- `validate_route` (`validators.py` lines 29-59): both keys present, the
destination a well-formed (strict) network, the gateway a bare address
with no CIDR suffix. -/
def validate_route (route : PyRouteDict) : Bool :=
  match route.destination, route.gateway with
  | some destination, some gateway =>
    ip_network_ok destination true
    ∧ ¬ containsChar gateway '/'
    ∧ ip_address_ok gateway
  | _, _ => false

/-- The configuration dict passed to `validate_network_config`.  A list
key that is absent behaves exactly like an empty list (both fail the
`key in config and config[key]` guard), so list fields are plain lists;
`interface_name` distinguishes the absent key from a present empty
string. -/
structure PyNetworkConfig where
  interface_name : Option String := none
  ipv4_addresses : List String := []
  ipv6_addresses : List String := []
  ipv4_gateway : Option String := none
  ipv6_gateway : Option String := none
  dns : List String := []
  routes : List PyRouteDict := []
deriving DecidableEq

/-- The value returned by `validate_network_config`: a list of error
strings, or the Python literal `True` (`errors if errors else True`,
`validators.py` line 112). -/
inductive ValidationResult
  | errors (msgs : List String)
  | valid
deriving DecidableEq

/-- The return expression `errors if errors else True`
(`validators.py` line 112). -/
def validationOutcome (errors : List String) : ValidationResult :=
  if errors ≠ [] then .errors errors else .valid

/-- `validate_network_config` (`validators.py` lines 62-112): collect
every violation in order, without short-circuiting, and return `True`
when none was found. -/
def validate_network_config (config : PyNetworkConfig) : ValidationResult :=
  let nameErrors :=
    match config.interface_name with
    | some n => if truthy n then [] else ["Interface name is required"]
    | none => ["Interface name is required"]
  let ipv4Errors :=
    config.ipv4_addresses.filterMap (fun addr =>
      if ¬ validate_ip_address addr ∨ containsChar addr ':' then
        some ("Invalid IPv4 address format: " ++ addr)
      else none)
  let ipv6Errors :=
    config.ipv6_addresses.filterMap (fun addr =>
      if ¬ validate_ip_address addr ∨ ¬ containsChar addr ':' then
        some ("Invalid IPv6 address format: " ++ addr)
      else none)
  let gw4Errors :=
    match config.ipv4_gateway with
    | some g =>
      if truthy g ∧ (¬ validate_ip_address g ∨ containsChar g ':') then
        ["Invalid IPv4 gateway format: " ++ g]
      else []
    | none => []
  let gw6Errors :=
    match config.ipv6_gateway with
    | some g =>
      if truthy g ∧ (¬ validate_ip_address g ∨ ¬ containsChar g ':') then
        ["Invalid IPv6 gateway format: " ++ g]
      else []
    | none => []
  let dnsErrors :=
    config.dns.filterMap (fun dns =>
      if ¬ validate_ip_address dns then
        some ("Invalid DNS server address: " ++ dns)
      else none)
  let routeErrors :=
    config.routes.filterMap (fun route =>
      if ¬ validate_route route then
        some ("Invalid route configuration: " ++ pyRouteRepr route)
      else none)
  let errors :=
    nameErrors ++ ipv4Errors ++ ipv6Errors ++ gw4Errors ++ gw6Errors
    ++ dnsErrors ++ routeErrors
  validationOutcome errors

end Validators

/-! ## `src/ntp_worker.py` — `SingleInterfaceNTPAnalyzer`

The pairing state machine is embedded from `try_pair_packet`,
`cleanup_old_requests`, `process_packet_block` and the block loop of
`run_capture`.  A parsed block enters the machine as the classified
packet dict produced by `parse_packet` (the tcpdump text extraction
itself is outside the verified properties), together with its capture
time.  `time.time()` values and the pairing timeout are modelled as
integers. -/

namespace NtpWorker

/-- The NTP field dict collected per block; its contents are carried
through the machine untouched. -/
abbrev NtpInfo := List (String × String)

inductive PacketType
  | request
  | response
deriving DecidableEq

/-- The fields of the `packet_info` dict that the pairing machine reads
(`parse_packet`, `ntp_worker.py` lines 138-161). -/
structure PacketInfo where
  src_ip : String
  src_port : Nat
  dst_ip : String
  dst_port : Nat
  ntp_version : Nat
  packet_type : PacketType
deriving DecidableEq

/-- The 3-tuple key of `get_session_key` (`ntp_worker.py` lines 231-236):
(client ip, client port, server ip) from the perspective of each side. -/
abbrev SessionKey := String × Nat × String

def get_session_key (packet_info : PacketInfo) : SessionKey :=
  match packet_info.packet_type with
  | .request => (packet_info.src_ip, packet_info.src_port, packet_info.dst_ip)
  | .response => (packet_info.dst_ip, packet_info.dst_port, packet_info.src_ip)

/-- A stored pending request (`ntp_worker.py` lines 244-248). -/
structure PendingData where
  packet_info : PacketInfo
  ntp_info : NtpInfo
  timestamp : Int
deriving DecidableEq

/-- A completed session (`ntp_worker.py` lines 256-265). -/
structure NtpSession where
  session_id : Nat
  interface : String
  request : PendingData
  response : PendingData
deriving DecidableEq

inductive UnmatchedKind
  | orphaned_response
  | orphaned_request
deriving DecidableEq

/-- An entry of `unmatched_packets`. -/
structure UnmatchedPacket where
  kind : UnmatchedKind
  packet_info : PacketInfo
  ntp_info : NtpInfo
deriving DecidableEq

/-- `self.pending_requests`: a Python dict keyed by the session key.
Insertion replaces the value of an existing key in place and appends a
new key at the end, preserving dict insertion order. -/
def dictInsert (k : SessionKey) (v : PendingData) :
    List (SessionKey × PendingData) → List (SessionKey × PendingData)
  | [] => [(k, v)]
  | (k₀, v₀) :: rest =>
    if k₀ = k then (k, v) :: rest else (k₀, v₀) :: dictInsert k v rest

def dictLookup (k : SessionKey) :
    List (SessionKey × PendingData) → Option PendingData
  | [] => none
  | (k₀, v₀) :: rest => if k₀ = k then some v₀ else dictLookup k rest

def dictErase (k : SessionKey) :
    List (SessionKey × PendingData) → List (SessionKey × PendingData)
  | [] => []
  | (k₀, v₀) :: rest =>
    if k₀ = k then rest else (k₀, v₀) :: dictErase k rest

/-- The mutable state of `SingleInterfaceNTPAnalyzer`
(`ntp_worker.py` lines 48-59). -/
structure AnalyzerState where
  interface : String
  pairing_timeout : Int
  packet_count : Nat
  session_count : Nat
  pending_requests : List (SessionKey × PendingData)
  completed_sessions : List NtpSession
  unmatched_packets : List UnmatchedPacket
deriving DecidableEq

/-- `__init__`: empty pairing state. -/
def initAnalyzer (interface : String) (pairing_timeout : Int) : AnalyzerState :=
  { interface := interface,
    pairing_timeout := pairing_timeout,
    packet_count := 0,
    session_count := 0,
    pending_requests := [],
    completed_sessions := [],
    unmatched_packets := [] }

/-- `try_pair_packet` (`ntp_worker.py` lines 238-277); `now` is the
`time.time()` captured while handling the packet. -/
def try_pair_packet (st : AnalyzerState) (packet_info : PacketInfo)
    (ntp_info : NtpInfo) (now : Int) : AnalyzerState :=
  let session_key := get_session_key packet_info
  match packet_info.packet_type with
  | .request =>
    { st with
      pending_requests :=
        dictInsert session_key
          { packet_info := packet_info, ntp_info := ntp_info, timestamp := now }
          st.pending_requests }
  | .response =>
    match dictLookup session_key st.pending_requests with
    | some request_data =>
      let session : NtpSession :=
        { session_id := st.session_count + 1,
          interface := st.interface,
          request := request_data,
          response :=
            { packet_info := packet_info, ntp_info := ntp_info, timestamp := now } }
      { st with
        pending_requests := dictErase session_key st.pending_requests,
        session_count := st.session_count + 1,
        completed_sessions := st.completed_sessions ++ [session] }
    | none =>
      { st with
        unmatched_packets :=
          st.unmatched_packets ++
            [{ kind := .orphaned_response, packet_info := packet_info,
               ntp_info := ntp_info }] }

/-- Whether a pending entry has outlived the pairing timeout
(`current_time - request_data["timestamp"] > self.pairing_timeout`). -/
def isExpired (timeout now : Int) (e : SessionKey × PendingData) : Bool :=
  now - e.2.timestamp > timeout

/-- `cleanup_old_requests` (`ntp_worker.py` lines 433-448): expired
entries are appended to `unmatched_packets` as `orphaned_request` in
iteration order and deleted from the pending dict. -/
def cleanup_old_requests (st : AnalyzerState) (now : Int) : AnalyzerState :=
  let expired := st.pending_requests.filter (isExpired st.pairing_timeout now)
  { st with
    unmatched_packets :=
      st.unmatched_packets ++
        expired.map (fun e =>
          { kind := .orphaned_request, packet_info := e.2.packet_info,
            ntp_info := e.2.ntp_info }),
    pending_requests :=
      st.pending_requests.filter (fun e => ! isExpired st.pairing_timeout now e) }

/-- `process_packet_block` (`ntp_worker.py` lines 450-462) on a block
whose parse produced a classified packet: pair it, then clean up when
the running block counter has reached a multiple of ten. -/
def process_packet_block (st : AnalyzerState) (packet_info : PacketInfo)
    (ntp_info : NtpInfo) (now : Int) : AnalyzerState :=
  let st₁ := try_pair_packet st packet_info ntp_info now
  if st₁.packet_count % 10 = 0 then cleanup_old_requests st₁ now else st₁

/-- One block of the `run_capture` loop (`ntp_worker.py` lines 476-495):
the counter is incremented when the block starts, so block `k` is
processed with `packet_count = k`; a block whose parse yields no
`packet_type` only counts. -/
def captureBlock (st : AnalyzerState)
    (parsed : Option (PacketInfo × NtpInfo)) (now : Int) : AnalyzerState :=
  let st₁ := { st with packet_count := st.packet_count + 1 }
  match parsed with
  | some (packet_info, ntp_info) => process_packet_block st₁ packet_info ntp_info now
  | none => st₁

/-- The capture loop over a sequence of flushed blocks. -/
def runBlocks (st : AnalyzerState) :
    List (Option (PacketInfo × NtpInfo) × Int) → AnalyzerState
  | [] => st
  | (parsed, now) :: rest => runBlocks (captureBlock st parsed now) rest

/-- Days-to-calendar-date conversion of the proleptic Gregorian calendar,
as `datetime.fromtimestamp(..., tz=timezone.utc)` performs it. -/
def civilFromDays (z₀ : Int) : Int × Int × Int :=
  let z := z₀ + 719468
  let era : Int := (if 0 ≤ z then z else z - 146096) / 146097
  let doe := z - era * 146097
  let yoe := (doe - doe / 1460 + doe / 36524 - doe / 146096) / 365
  let y := yoe + era * 400
  let doy := doe - (365 * yoe + yoe / 4 - yoe / 100)
  let mp := (5 * doy + 2) / 153
  let d := doy - (153 * mp + 2) / 5 + 1
  let m := mp + (if mp < 10 then 3 else -9)
  (y + (if m ≤ 2 then 1 else 0), m, d)

def pad2 (n : Int) : String :=
  if n < 10 then "0" ++ toString n else toString n

def pad4 (n : Int) : String :=
  if n < 10 then "000" ++ toString n
  else if n < 100 then "00" ++ toString n
  else if n < 1000 then "0" ++ toString n
  else toString n

/-- `dt.strftime("%Y-%m-%d %H:%M:%S.%f UTC")` for a whole-second UTC
datetime: the microsecond field renders as six zeros. -/
def strftimeWithUTC (unix_timestamp : Int) : String :=
  let days := unix_timestamp / 86400
  let secs := unix_timestamp % 86400
  let (y, m, d) := civilFromDays days
  pad4 y ++ "-" ++ pad2 m ++ "-" ++ pad2 d ++ " " ++
    pad2 (secs / 3600) ++ ":" ++ pad2 ((secs % 3600) / 60) ++ ":" ++
    pad2 (secs % 60) ++ ".000000 UTC"

/-- The range of timestamps `datetime.fromtimestamp` accepts: years 1 to
9999; outside it the call raises and the handler returns the parse-error
string. -/
def fromtimestampMin : Int := -62135596800
def fromtimestampMax : Int := 253402300799

/-- `ntp_timestamp_to_datetime` (`ntp_worker.py` lines 422-431) for the
whole-second raw values the verified property evaluates.  Note the
subtraction of the 1900-to-1970 offset, and that `[:-3]` is applied to a
string that ends in `" UTC"`. -/
def ntp_timestamp_to_datetime (ntp_timestamp : Int) : String :=
  if ntp_timestamp = 0 then "未设置"
  else
    let unix_timestamp := ntp_timestamp - 2208988800
    if fromtimestampMin ≤ unix_timestamp ∧ unix_timestamp ≤ fromtimestampMax then
      (strftimeWithUTC unix_timestamp).dropRight 3
    else
      "解析错误: " ++ toString ntp_timestamp

end NtpWorker

/-! ## `src/models/ntp_models.py` — the `NTPClient` row

Numeric protocol fields keep their Python values abstractly as integers
(their arithmetic is never used).  `datetime` values are integers.  The
database-managed surrogate `id` and the `created_at` / `updated_at`
audit columns, which no verified property mentions, are not carried.

The `session_timestamp` string of an ingested record is parsed with
`datetime.fromisoformat` (after mapping a trailing `Z`); a successfully
parsed value appears here as `some t`, while an absent or unparseable
value — both of which make the code substitute `datetime.utcnow()` —
appears as `none`. -/

namespace NtpModels

/-- The JSON dict of one ingested NTP session; absent keys are `none`. -/
structure SessionData where
  client_ip : Option String := none
  client_port : Option Int := none
  server_ip : Option String := none
  server_port : Option Int := none
  interface_name : Option String := none
  ntp_version : Option Int := none
  stratum : Option Int := none
  precision : Option Int := none
  root_delay : Option Int := none
  root_dispersion : Option Int := none
  reference_id : Option String := none
  leap_indicator : Option String := none
  poll_interval : Option Int := none
  reference_timestamp : Option Int := none
  originate_timestamp : Option Int := none
  receive_timestamp : Option Int := none
  transmit_timestamp : Option Int := none
  client_to_server_latency_seconds : Option Int := none
  server_processing_time_seconds : Option Int := none
  total_process_time_seconds : Option Int := none
  packet_length : Option Int := none
  session_timestamp : Option Int := none
deriving DecidableEq

/-- The timestamp-parsing prologue shared by `from_session_data` and
`update_from_session_data` (`ntp_models.py` lines 141-151 and 187-197):
the parsed session timestamp, or the current time when the field is
absent or fails to parse. -/
def parsedSessionTimestamp (s : SessionData) (now : Int) : Int :=
  s.session_timestamp.getD now

/-- A persisted `ntp_clients` row (`ntp_models.py` lines 15-70). -/
structure NTPClientRow where
  client_ip : String
  client_port : Int
  server_ip : String
  server_port : Int
  interface_name : String
  ntp_version : Int
  stratum : Option Int
  precision : Option Int
  root_delay : Option Int
  root_dispersion : Option Int
  reference_id : Option String
  leap_indicator : Option String
  poll_interval : Option Int
  reference_timestamp : Option Int
  originate_timestamp : Option Int
  receive_timestamp : Option Int
  transmit_timestamp : Option Int
  client_to_server_latency_seconds : Option Int
  server_processing_time_seconds : Option Int
  total_process_time_seconds : Option Int
  packet_length : Option Int
  session_timestamp : Int
  first_seen_timestamp : Int
  last_seen_timestamp : Int
  session_count : Int
deriving DecidableEq

/-- `NTPClient.from_session_data` (`ntp_models.py` lines 130-178), plus
the `session_count` column default of 1 (line 60) that a fresh row takes
on insert. -/
def from_session_data (s : SessionData) (now : Int) : NTPClientRow :=
  let session_timestamp := parsedSessionTimestamp s now
  { client_ip := s.client_ip.getD "",
    client_port := s.client_port.getD 0,
    server_ip := s.server_ip.getD "",
    server_port := s.server_port.getD 123,
    interface_name := s.interface_name.getD "",
    ntp_version := s.ntp_version.getD 0,
    stratum := s.stratum,
    precision := s.precision,
    root_delay := s.root_delay,
    root_dispersion := s.root_dispersion,
    reference_id := s.reference_id,
    leap_indicator := s.leap_indicator,
    poll_interval := s.poll_interval,
    reference_timestamp := s.reference_timestamp,
    originate_timestamp := s.originate_timestamp,
    receive_timestamp := s.receive_timestamp,
    transmit_timestamp := s.transmit_timestamp,
    client_to_server_latency_seconds := s.client_to_server_latency_seconds,
    server_processing_time_seconds := s.server_processing_time_seconds,
    total_process_time_seconds := s.total_process_time_seconds,
    packet_length := s.packet_length,
    session_timestamp := session_timestamp,
    first_seen_timestamp := session_timestamp,
    last_seen_timestamp := session_timestamp,
    session_count := 1 }

/-- `NTPClient.update_from_session_data` (`ntp_models.py` lines 180-229):
`session_data.get(key, self.field)` keeps the prior value when the key is
absent.  The network identity columns (`client_ip`, `client_port`,
`server_ip`, `server_port`, `interface_name`) are not touched by the
method. -/
def update_from_session_data (row : NTPClientRow) (s : SessionData)
    (now : Int) : NTPClientRow :=
  let session_timestamp := parsedSessionTimestamp s now
  { row with
    ntp_version := s.ntp_version.getD row.ntp_version,
    stratum := match s.stratum with | some v => some v | none => row.stratum,
    precision := match s.precision with | some v => some v | none => row.precision,
    root_delay := match s.root_delay with | some v => some v | none => row.root_delay,
    root_dispersion :=
      match s.root_dispersion with | some v => some v | none => row.root_dispersion,
    reference_id :=
      match s.reference_id with | some v => some v | none => row.reference_id,
    leap_indicator :=
      match s.leap_indicator with | some v => some v | none => row.leap_indicator,
    poll_interval :=
      match s.poll_interval with | some v => some v | none => row.poll_interval,
    reference_timestamp :=
      match s.reference_timestamp with
      | some v => some v | none => row.reference_timestamp,
    originate_timestamp :=
      match s.originate_timestamp with
      | some v => some v | none => row.originate_timestamp,
    receive_timestamp :=
      match s.receive_timestamp with
      | some v => some v | none => row.receive_timestamp,
    transmit_timestamp :=
      match s.transmit_timestamp with
      | some v => some v | none => row.transmit_timestamp,
    client_to_server_latency_seconds :=
      match s.client_to_server_latency_seconds with
      | some v => some v | none => row.client_to_server_latency_seconds,
    server_processing_time_seconds :=
      match s.server_processing_time_seconds with
      | some v => some v | none => row.server_processing_time_seconds,
    total_process_time_seconds :=
      match s.total_process_time_seconds with
      | some v => some v | none => row.total_process_time_seconds,
    packet_length :=
      match s.packet_length with | some v => some v | none => row.packet_length,
    session_timestamp := session_timestamp,
    last_seen_timestamp := session_timestamp,
    session_count := row.session_count + 1 }

/-- The condensed dict of `NTPClient.to_summary_dict`
(`ntp_models.py` lines 110-128). -/
structure SummaryDict where
  client_ip : String
  interface_name : String
  ntp_version : Int
  stratum : Option Int
  server_ip : String
  last_seen_timestamp : Int
  session_count : Int
  client_to_server_latency_seconds : Option Int
  total_process_time_seconds : Option Int
deriving DecidableEq

def to_summary_dict (row : NTPClientRow) : SummaryDict :=
  { client_ip := row.client_ip,
    interface_name := row.interface_name,
    ntp_version := row.ntp_version,
    stratum := row.stratum,
    server_ip := row.server_ip,
    last_seen_timestamp := row.last_seen_timestamp,
    session_count := row.session_count,
    client_to_server_latency_seconds := row.client_to_server_latency_seconds,
    total_process_time_seconds := row.total_process_time_seconds }

end NtpModels

/-! ## `src/services/ntp_data_ingestion_service.py`

The history store is a list of rows in flush order.  The read helpers
swallow every storage exception, so each receives the outcome of the
underlying store access as an `Except`: `.ok rows` is a working database,
`.error e` a database whose access raises `e`. -/

namespace Ingestion

open PyStr NtpModels

/-- Python truthiness of an optional string (`if search_ip:` style
guards). -/
def optTruthy : Option String → Bool
  | some s => truthy s
  | none => false

/-- `session.query(NTPClient).filter(NTPClient.client_ip == ip).first()`:
the first stored row carrying the client ip. -/
def findByIp (ip : String) : List NTPClientRow → Option NTPClientRow
  | [] => none
  | r :: rest => if r.client_ip = ip then some r else findByIp ip rest

/-- Apply `f` to the first stored row carrying the client ip (the mutation
of the identity-map object returned by the query). -/
def updateFirstByIp (ip : String) (f : NTPClientRow → NTPClientRow) :
    List NTPClientRow → List NTPClientRow
  | [] => []
  | r :: rest =>
    if r.client_ip = ip then f r :: rest else r :: updateFirstByIp ip f rest

/-- The per-record loop of `_process_batch`
(`ntp_data_ingestion_service.py` lines 283-314) followed by the commit.

`persistent` holds the flushed rows through the identity map (updates are
applied in place); `added` holds rows passed to `session.add` during this
batch.  Because the session is created with `autoflush=False` (line 141),
the lookup query sees only `persistent` — a row added earlier in the same
batch is invisible to it.  The commit flushes `added` after the flushed
rows. -/
def processBatchGo (now : Int) (persistent added : List NTPClientRow)
    (inserted updated : Nat) :
    List SessionData → List NTPClientRow × Nat × Nat
  | [] => (persistent ++ added, inserted, updated)
  | s :: rest =>
    let client_ip := s.client_ip.getD ""
    let interface_name := s.interface_name.getD ""
    if ¬ truthy client_ip ∨ ¬ truthy interface_name then
      processBatchGo now persistent added inserted updated rest
    else
      match findByIp client_ip persistent with
      | some _ =>
        processBatchGo now
          (updateFirstByIp client_ip (fun r => update_from_session_data r s now)
            persistent)
          added inserted (updated + 1) rest
      | none =>
        processBatchGo now persistent (added ++ [from_session_data s now])
          (inserted + 1) updated rest

/-- `_process_batch` (`ntp_data_ingestion_service.py` lines 266-336) on a
committed store: the new store plus the `inserted` and `updated` counters
the batch adds to the running statistics. -/
def _process_batch (db : List NTPClientRow) (batch : List SessionData)
    (now : Int) : List NTPClientRow × Nat × Nat :=
  processBatchGo now db [] 0 0 batch

/-- `cleanup_old_records` (`ntp_data_ingestion_service.py` lines
481-508): delete rows with `last_seen_timestamp` strictly older than
`utcnow() - timedelta(days=days)` and report how many went. -/
def cleanup_old_records (db : List NTPClientRow) (days : Int) (now : Int) :
    List NTPClientRow × Nat :=
  let cutoff_date := now - days * 86400
  ((db.filter (fun r => ¬ r.last_seen_timestamp < cutoff_date)),
   (db.filter (fun r => r.last_seen_timestamp < cutoff_date)).length)

/-- Descending insertion for `order_by(last_seen_timestamp.desc())`. -/
def insertByLastSeenDesc (r : NTPClientRow) :
    List NTPClientRow → List NTPClientRow
  | [] => [r]
  | x :: xs =>
    if r.last_seen_timestamp ≤ x.last_seen_timestamp then
      x :: insertByLastSeenDesc r xs
    else r :: x :: xs

def orderByLastSeenDesc (rows : List NTPClientRow) : List NTPClientRow :=
  rows.foldr insertByLastSeenDesc []

/-- `get_historical_clients` (`ntp_data_ingestion_service.py` lines
366-415): filter, count, order, page, and summarise; any storage
exception yields `([], 0)`. -/
def get_historical_clients (db : Except String (List NTPClientRow))
    (page page_size : Int) (search_ip interface_name : Option String) :
    List SummaryDict × Nat :=
  match db with
  | .error _ => ([], 0)
  | .ok rows =>
    let q₁ := if optTruthy search_ip then
        rows.filter (fun r => r.client_ip = search_ip.getD "") else rows
    let q₂ := if optTruthy interface_name then
        q₁.filter (fun r => r.interface_name = interface_name.getD "") else q₁
    let total_count := q₂.length
    let ordered := orderByLastSeenDesc q₂
    let paged :=
      if page_size > 0 then
        (ordered.drop ((page - 1) * page_size).toNat).take page_size.toNat
      else ordered
    (paged.map to_summary_dict, total_count)

/-- `get_client_detail` (lines 417-441): the full row for the ip (its
`to_dict` rendering carries the same fields), `none` when absent or when
the store raises. -/
def get_client_detail (db : Except String (List NTPClientRow))
    (client_ip : String) : Option NTPClientRow :=
  match db with
  | .error _ => none
  | .ok rows => findByIp client_ip rows

/-- One line of the per-interface aggregation of
`get_interface_statistics` (lines 443-479). -/
structure InterfaceStat where
  interface_name : String
  client_count : Nat
  total_sessions : Int
  last_activity : Option Int
  average_latency_seconds : Option Rat
deriving DecidableEq

/-- Distinct interface names in first-appearance order (the SQL
`GROUP BY interface_name` keys). -/
def distinctInterfaceNames (rows : List NTPClientRow) : List String :=
  rows.foldl
    (fun acc r =>
      if acc.contains r.interface_name then acc else acc ++ [r.interface_name])
    []

/-- The maximum of a non-empty list of timestamps (`func.max`). -/
def maxTimestamp : List Int → Option Int
  | [] => none
  | t :: ts =>
    match maxTimestamp ts with
    | none => some t
    | some m => some (max t m)

/-- `get_interface_statistics` (lines 443-479): per interface, the row
count, summed `session_count` (`or 0` when NULL), latest `last_seen`, and
the mean latency over rows that carry one — `AVG` ignores NULLs, and the
handler maps both a NULL and a zero average to `None` through the
truthiness test `if result.avg_latency`. -/
def get_interface_statistics (db : Except String (List NTPClientRow)) :
    List InterfaceStat :=
  match db with
  | .error _ => []
  | .ok rows =>
    (distinctInterfaceNames rows).map (fun name =>
      let group := rows.filter (fun r => r.interface_name = name)
      let latencies := group.filterMap (fun r => r.client_to_server_latency_seconds)
      let avg : Option Rat :=
        if latencies.length = 0 then none
        else
          let v : Rat := (latencies.foldl (· + ·) 0 : Int) / (latencies.length : Rat)
          if v = 0 then none else some v
      { interface_name := name,
        client_count := group.length,
        total_sessions := (group.map (fun r => r.session_count)).foldl (· + ·) 0,
        last_activity := maxTimestamp (group.map (fun r => r.last_seen_timestamp)),
        average_latency_seconds := avg })

end Ingestion

/-! ## `src/routes/ntp_history_routes.py`

Each handler is a function of its already-decoded request data and of the
store.  Module-level name resolution matters here: the module imports
`math`, three Flask names, four service helpers and `logging`
(lines 1-17) — and nothing else — so an occurrence of `datetime` in a
handler body raises `NameError`, which the handler catch-all turns into
a 500 response. -/

namespace HistoryRoutes

open PyStr NtpModels Ingestion

/-- The names bound at module level in `ntp_history_routes.py`
(lines 6-17): the imports plus the logger and the blueprint. -/
def moduleNames : List String :=
  ["math", "Blueprint", "jsonify", "request",
   "get_historical_clients", "get_client_detail",
   "get_interface_statistics", "get_service_stats",
   "logging", "logger", "ntp_history_bp"]

/-- A Python runtime error surfaced by a handler body. -/
inductive PyError
  | nameError (name : String)
deriving DecidableEq

/-- Resolving a global name inside a handler body. -/
def evalModuleName (name : String) : Except PyError Unit :=
  if name ∈ moduleNames then .ok () else .error (.nameError name)

/-- The pagination dict built by `get_clients_list`
(`ntp_history_routes.py` lines 76-85). -/
structure PaginationInfo where
  current_page : Int
  page_size : Int
  total_count : Int
  total_pages : Int
  has_next : Bool
  has_prev : Bool
  next_page : Option Int
  prev_page : Option Int
deriving DecidableEq

/-- The response of `GET /api/ntp/history/clients`. -/
inductive ClientsListResult
  | badRequest (message : String)
  | ok (clients : List SummaryDict) (pagination : PaginationInfo)
deriving DecidableEq

def ClientsListResult.status : ClientsListResult → Nat
  | .badRequest _ => 400
  | .ok _ _ => 200

/-- `math.ceil(total_count / page_size)` for a positive page size. -/
def ceilDiv (total page_size : Int) : Int :=
  (total + page_size - 1) / page_size

/-- `get_clients_list` (`ntp_history_routes.py` lines 20-110): parameter
validation happens before the store is consulted; empty filter strings
become `None`. -/
def get_clients_list (db : Except String (List NTPClientRow))
    (page page_size : Int) (search_ip interface_name : String) :
    ClientsListResult :=
  if page < 1 then
    .badRequest "Invalid page number. Must be >= 1"
  else if page_size < 1 ∨ page_size > 100 then
    .badRequest "Invalid page_size. Must be between 1 and 100"
  else
    let sIp := if truthy (trim search_ip) then some (trim search_ip) else none
    let iName :=
      if truthy (trim interface_name) then some (trim interface_name) else none
    let (clients, total_count) :=
      get_historical_clients db page page_size sIp iName
    let total_pages : Int :=
      if total_count > 0 then ceilDiv (total_count : Int) page_size else 0
    let has_next := page < total_pages
    let has_prev := page > 1
    .ok clients
      { current_page := page,
        page_size := page_size,
        total_count := (total_count : Int),
        total_pages := total_pages,
        has_next := has_next,
        has_prev := has_prev,
        next_page := if has_next then some (page + 1) else none,
        prev_page := if has_prev then some (page - 1) else none }

/-- The response of `GET /api/ntp/history/clients/<ip>`; the 200 payload
is the `to_dict` rendering of the row. -/
inductive ClientDetailResult
  | badRequest (message : String)
  | ok (detail : NTPClientRow)
  | notFound (message : String)
deriving DecidableEq

def ClientDetailResult.status : ClientDetailResult → Nat
  | .badRequest _ => 400
  | .ok _ => 200
  | .notFound _ => 404

/-- `get_client_details` (`ntp_history_routes.py` lines 113-158). -/
def get_client_details_route (db : Except String (List NTPClientRow))
    (client_ip : String) : ClientDetailResult :=
  if ¬ truthy client_ip ∨ ¬ truthy (trim client_ip) then
    .badRequest "Client IP address is required"
  else
    let ip := trim client_ip
    match get_client_detail db ip with
    | some detail => .ok detail
    | none => .notFound ("Client " ++ ip ++ " not found")

/-- A JSON body value for the `days` parameter: an integer, or a value of
any other JSON type (which fails the `isinstance(days, int)` check). -/
inductive JsonVal
  | jint (i : Int)
  | jother
deriving DecidableEq

/-- The observable outcome of `POST /api/ntp/history/cleanup`: the HTTP
status, the store it leaves behind, the `deleted_count` of a 200 body,
and the runtime error a 500 swallowed. -/
structure CleanupOutcome where
  status : Nat
  db : List NTPClientRow
  deleted_count : Option Nat
  error : Option PyError
deriving DecidableEq

/-- `cleanup_old_records` route handler (`ntp_history_routes.py` lines
439-484).  A non-JSON body yields an empty dict, so `days` defaults to
30.  After the store cleanup the 200 body evaluates
`datetime.utcnow().isoformat()`; the `except` clause maps any error to a
500 `Cleanup failed` response. -/
def cleanup_route (is_json : Bool) (body_days : Option JsonVal)
    (db : List NTPClientRow) (now : Int) : CleanupOutcome :=
  let days := if is_json then body_days.getD (.jint 30) else .jint 30
  match days with
  | .jother =>
    { status := 400, db := db, deleted_count := none, error := none }
  | .jint d =>
    if d < 1 ∨ d > 365 then
      { status := 400, db := db, deleted_count := none, error := none }
    else
      let (db₂, deleted_count) := Ingestion.cleanup_old_records db d now
      match evalModuleName "datetime" with
      | .ok _ =>
        { status := 200, db := db₂, deleted_count := some deleted_count,
          error := none }
      | .error e =>
        { status := 500, db := db₂, deleted_count := none, error := some e }

/-- The observable outcome of `POST /api/ntp/history/export`. -/
structure ExportOutcome where
  status : Nat
  error : Option PyError
deriving DecidableEq

/-- `export_clients` (`ntp_history_routes.py` lines 332-436).  With a
valid format and limit the handler queries the store (the
`"total_count" in locals()` clamp is false on this path, so the page size
is the limit itself) and then, in the JSON branch directly and in the CSV
branch after serialising the rows, evaluates `datetime.utcnow()`. -/
def export_clients_route (is_json : Bool) (format? : Option String)
    (limit? : Option Int) (search_ip interface_name : Option String)
    (db : Except String (List NTPClientRow)) : ExportOutcome :=
  if ¬ is_json then
    { status := 400, error := none }
  else
    let export_format := lower (format?.getD "json")
    let limit := limit?.getD 1000
    if ¬ (export_format = "json" ∨ export_format = "csv") then
      { status := 400, error := none }
    else if limit < 1 ∨ limit > 10000 then
      { status := 400, error := none }
    else
      let _clients := get_historical_clients db 1 limit search_ip interface_name
      if export_format = "json" then
        match evalModuleName "datetime" with
        | .ok _ => { status := 200, error := none }
        | .error e => { status := 500, error := some e }
      else
        match evalModuleName "datetime" with
        | .ok _ => { status := 200, error := none }
        | .error e => { status := 500, error := some e }

end HistoryRoutes

/-! ## Verified properties -/

/-- C3: generating the config text for an interface with IPv4 address
192.168.1.10/24, IPv4 gateway 192.168.1.1, DNS list [8.8.8.8] and the
single route 10.0.0.0/8 via 192.168.1.254, then parsing it back, recovers
the identical interface name, address lists, gateway, DNS list and route
list; with the route replaced by 224.0.0.0/4 via 0.0.0.0 the route is
dropped at generation, and the exclusion predicate also drops it on any
re-parse, so zero routes survive the round trip. -/
theorem C3_codec_round_trip :
    (ConfigParser.parse_network_file (ConfigParser.generate_network_config
      { interface_name := "eth0",
        ipv4_addresses := ["192.168.1.10/24"],
        ipv4_gateway := some "192.168.1.1",
        dns := ["8.8.8.8"],
        systemd_networkd_routes :=
          [{ destination := "10.0.0.0/8", gateway := "192.168.1.254" }] }) =
      (some "eth0",
       some { ipv4_addresses := ["192.168.1.10/24"], ipv6_addresses := [],
              ipv4_gateway := some "192.168.1.1", ipv6_gateway := none,
              dns := ["8.8.8.8"],
              systemd_networkd_routes := [("10.0.0.0/8", "192.168.1.254")] }))
    ∧ (ConfigParser.parse_network_file (ConfigParser.generate_network_config
      { interface_name := "eth0",
        ipv4_addresses := ["192.168.1.10/24"],
        ipv4_gateway := some "192.168.1.1",
        dns := ["8.8.8.8"],
        systemd_networkd_routes :=
          [{ destination := "224.0.0.0/4", gateway := "0.0.0.0" }] }) =
      (some "eth0",
       some { ipv4_addresses := ["192.168.1.10/24"], ipv6_addresses := [],
              ipv4_gateway := some "192.168.1.1", ipv6_gateway := none,
              dns := ["8.8.8.8"],
              systemd_networkd_routes := [] }))
    ∧ ConfigParser.should_exclude_systemd_route "224.0.0.0/4" "0.0.0.0" = true := by
  refine ⟨by decide, by decide, by decide⟩

/-- C6 counterexample: on the valid configuration named by the claim the
validator returns the Python literal `True`, not the empty error list the
claim describes. -/
theorem C6_counterexample_valid_returns_true :
    Validators.validate_network_config
      { interface_name := some "eth0", ipv4_addresses := ["10.0.0.5/24"] } =
      Validators.ValidationResult.valid ∧
    Validators.ValidationResult.valid ≠ Validators.ValidationResult.errors [] := by
  refine ⟨by decide, by decide⟩

/-- Helper: the final `errors if errors else True` expression of the
validator never produces an empty error list. -/
theorem validationOutcome_ne_empty_errors (errors : List String) :
    Validators.validationOutcome errors ≠ Validators.ValidationResult.errors [] := by
  unfold Validators.validationOutcome
  split
  next h => simpa using h
  next => simp

/-- C6 (amended): the validator returns the boolean `True` — not a list —
when the configuration has no violations, and otherwise a non-empty list
collecting every violation without short-circuiting; it never returns an
empty list.  On the claimed valid example it returns `True`; on the
claimed invalid example it collects both the missing-name violation and
the IPv4 violation. -/
theorem C6_validator_amended :
    (Validators.validate_network_config
      { interface_name := some "eth0", ipv4_addresses := ["10.0.0.5/24"] } =
      Validators.ValidationResult.valid)
    ∧ (Validators.validate_network_config { ipv4_addresses := ["2001:db8::1/64"] } =
        Validators.ValidationResult.errors
          ["Interface name is required",
           "Invalid IPv4 address format: 2001:db8::1/64"])
    ∧ ∀ config, Validators.validate_network_config config ≠
        Validators.ValidationResult.errors [] := by
  refine ⟨by decide, by decide, fun config => ?_⟩
  unfold Validators.validate_network_config
  exact validationOutcome_ne_empty_errors _

/-- C7: the NTP-to-calendar conversion at raw value 3913056000 does not
produce the claimed millisecond rendering "2024-01-01 00:00:00.000 UTC":
because `[:-3]` is applied after the literal " UTC" suffix, the code
yields "2024-01-01 00:00:00.000000 " (microseconds intact, the UTC label
cut).  Raw value 0 yields the not-set rendering. -/
theorem C7_timestamp_rendering_bug :
    NtpWorker.ntp_timestamp_to_datetime 3913056000 = "2024-01-01 00:00:00.000000 "
    ∧ NtpWorker.ntp_timestamp_to_datetime 3913056000 ≠ "2024-01-01 00:00:00.000 UTC"
    ∧ NtpWorker.ntp_timestamp_to_datetime 0 = "未设置" := by
  refine ⟨by decide, by decide, by decide⟩

/-- C8 counterexample: two Route values with equal destination and equal
gateway but different originating devices are not equal under the
dataclass equality. -/
theorem C8_counterexample_dev_breaks_equality :
    NetworkModels.routeDataclassEq
      { destination := "10.0.0.0/8", gateway := "192.168.1.1", dev := some "eth0" }
      { destination := "10.0.0.0/8", gateway := "192.168.1.1", dev := some "eth1" }
      = false := by decide

/-- C8 (amended): Route values are compared by all three dataclass fields
— destination, gateway and dev — so two values with equal destination and
gateway are equal exactly when their dev fields also agree. -/
theorem C8_route_equality_all_fields (a b : NetworkModels.Route) :
    NetworkModels.routeDataclassEq a b = true ↔
      a.destination = b.destination ∧ a.gateway = b.gateway ∧ a.dev = b.dev := by
  simp [NetworkModels.routeDataclassEq]

/-- C4: in the pairing state machine, (a) a request followed by a
response computing the same (client ip, client port, server ip) key and
arriving before the pairing timeout elapses produces exactly one
completed session and leaves no pending entry for that key, whatever the
block counter was when the pair arrived; and (b) a pending request whose
age exceeds the pairing timeout is moved to the orphaned set by the
cleanup pass the tenth parsed block triggers, and a later-arriving
response for its key pairs nothing — it is recorded as an orphaned
response and the completed-session list stays empty. -/
theorem C4_session_pairing (iface : String) (timeout : Int) (c : Nat)
    (req resp : NtpWorker.PacketInfo) (nreq nresp : NtpWorker.NtpInfo)
    (t1 t2 : Int)
    (req1 req2 resp3 : NtpWorker.PacketInfo)
    (m1 m2 m3 : NtpWorker.NtpInfo) (u1 u2 u3 : Int)
    (hreq : req.packet_type = .request)
    (hresp : resp.packet_type = .response)
    (hkey : NtpWorker.get_session_key resp = NtpWorker.get_session_key req)
    (hwin : t2 - t1 < timeout)
    (h1 : req1.packet_type = .request)
    (h2 : req2.packet_type = .request)
    (h3 : resp3.packet_type = .response)
    (hk3 : NtpWorker.get_session_key resp3 = NtpWorker.get_session_key req1)
    (hkne : NtpWorker.get_session_key req2 ≠ NtpWorker.get_session_key req1)
    (hexp : u2 - u1 > timeout)
    (htmo : 0 ≤ timeout) :
    (((NtpWorker.runBlocks
        { NtpWorker.initAnalyzer iface timeout with packet_count := c }
        [(some (req, nreq), t1),
         (some (resp, nresp), t2)]).completed_sessions.length,
      NtpWorker.dictLookup (NtpWorker.get_session_key req)
        (NtpWorker.runBlocks
          { NtpWorker.initAnalyzer iface timeout with packet_count := c }
          [(some (req, nreq), t1),
           (some (resp, nresp), t2)]).pending_requests) =
      (1, none))
    ∧
    (((NtpWorker.runBlocks (NtpWorker.initAnalyzer iface timeout)
        (List.replicate 8
            ((none : Option (NtpWorker.PacketInfo × NtpWorker.NtpInfo)), u1) ++
          [(some (req1, m1), u1), (some (req2, m2), u2),
           (some (resp3, m3), u3)])).completed_sessions,
      (NtpWorker.runBlocks (NtpWorker.initAnalyzer iface timeout)
        (List.replicate 8
            ((none : Option (NtpWorker.PacketInfo × NtpWorker.NtpInfo)), u1) ++
          [(some (req1, m1), u1), (some (req2, m2), u2),
           (some (resp3, m3), u3)])).unmatched_packets,
      NtpWorker.dictLookup (NtpWorker.get_session_key req1)
        (NtpWorker.runBlocks (NtpWorker.initAnalyzer iface timeout)
          (List.replicate 8
              ((none : Option (NtpWorker.PacketInfo × NtpWorker.NtpInfo)), u1) ++
            [(some (req1, m1), u1), (some (req2, m2), u2),
             (some (resp3, m3), u3)])).pending_requests) =
      ([],
       [{ kind := .orphaned_request, packet_info := req1, ntp_info := m1 },
        { kind := .orphaned_response, packet_info := resp3, ntp_info := m3 }],
       none)) := by
  constructor
  · have hfresh : NtpWorker.isExpired timeout t1
        (NtpWorker.get_session_key req, ⟨req, nreq, t1⟩) = false := by
      simp [NtpWorker.isExpired]
      omega
    simp [NtpWorker.runBlocks, NtpWorker.captureBlock,
      NtpWorker.process_packet_block, NtpWorker.try_pair_packet,
      NtpWorker.initAnalyzer, hreq, hresp, hkey,
      NtpWorker.cleanup_old_requests, NtpWorker.dictInsert,
      NtpWorker.dictLookup, NtpWorker.dictErase, hfresh]
  · have hkne2 : NtpWorker.get_session_key req1 ≠ NtpWorker.get_session_key req2 :=
      Ne.symm hkne
    have hexpired : NtpWorker.isExpired timeout u2
        (NtpWorker.get_session_key req1, ⟨req1, m1, u1⟩) = true := by
      simp [NtpWorker.isExpired]
      omega
    have hfresh2 : NtpWorker.isExpired timeout u2
        (NtpWorker.get_session_key req2, ⟨req2, m2, u2⟩) = false := by
      simp [NtpWorker.isExpired]
      omega
    simp [NtpWorker.runBlocks, NtpWorker.captureBlock,
      NtpWorker.process_packet_block, NtpWorker.try_pair_packet,
      NtpWorker.initAnalyzer, h1, h2, h3, hk3, hkne, hkne2,
      NtpWorker.cleanup_old_requests, NtpWorker.dictInsert,
      NtpWorker.dictLookup, NtpWorker.dictErase, hexpired, hfresh2,
      List.replicate]

/-- A concrete request packet used to witness C4. -/
def c4ReqPacket : NtpWorker.PacketInfo :=
  { src_ip := "192.168.1.100", src_port := 50000, dst_ip := "192.168.1.1",
    dst_port := 123, ntp_version := 4, packet_type := .request }

/-- A concrete response packet matching `c4ReqPacket`. -/
def c4RespPacket : NtpWorker.PacketInfo :=
  { src_ip := "192.168.1.1", src_port := 123, dst_ip := "192.168.1.100",
    dst_port := 50000, ntp_version := 4, packet_type := .response }

/-- A concrete request packet with a different session key. -/
def c4OtherReqPacket : NtpWorker.PacketInfo :=
  { src_ip := "192.168.1.101", src_port := 50001, dst_ip := "192.168.1.1",
    dst_port := 123, ntp_version := 4, packet_type := .request }

/-- Witness for C4 at concrete packets, a 2-second timeout, request time
0 with the response at time 1 for the paired scenario, and request time 0
with the orphaning cleanup at time 3 for the timeout scenario. -/
theorem C4_session_pairing_witness :
    (c4ReqPacket.packet_type = .request
      ∧ c4RespPacket.packet_type = .response
      ∧ NtpWorker.get_session_key c4RespPacket = NtpWorker.get_session_key c4ReqPacket
      ∧ (1 : Int) - 0 < 2
      ∧ c4OtherReqPacket.packet_type = .request
      ∧ NtpWorker.get_session_key c4OtherReqPacket ≠ NtpWorker.get_session_key c4ReqPacket
      ∧ (3 : Int) - 0 > 2
      ∧ (0 : Int) ≤ 2)
    ∧
    ((((NtpWorker.runBlocks
        { NtpWorker.initAnalyzer "eth0" 2 with packet_count := 0 }
        [(some (c4ReqPacket, []), 0),
         (some (c4RespPacket, []), 1)]).completed_sessions.length,
      NtpWorker.dictLookup (NtpWorker.get_session_key c4ReqPacket)
        (NtpWorker.runBlocks
          { NtpWorker.initAnalyzer "eth0" 2 with packet_count := 0 }
          [(some (c4ReqPacket, []), 0),
           (some (c4RespPacket, []), 1)]).pending_requests) =
      (1, none))
    ∧
    (((NtpWorker.runBlocks (NtpWorker.initAnalyzer "eth0" 2)
        (List.replicate 8
            ((none : Option (NtpWorker.PacketInfo × NtpWorker.NtpInfo)), 0) ++
          [(some (c4ReqPacket, []), 0), (some (c4OtherReqPacket, []), 3),
           (some (c4RespPacket, []), 4)])).completed_sessions,
      (NtpWorker.runBlocks (NtpWorker.initAnalyzer "eth0" 2)
        (List.replicate 8
            ((none : Option (NtpWorker.PacketInfo × NtpWorker.NtpInfo)), 0) ++
          [(some (c4ReqPacket, []), 0), (some (c4OtherReqPacket, []), 3),
           (some (c4RespPacket, []), 4)])).unmatched_packets,
      NtpWorker.dictLookup (NtpWorker.get_session_key c4ReqPacket)
        (NtpWorker.runBlocks (NtpWorker.initAnalyzer "eth0" 2)
          (List.replicate 8
              ((none : Option (NtpWorker.PacketInfo × NtpWorker.NtpInfo)), 0) ++
            [(some (c4ReqPacket, []), 0), (some (c4OtherReqPacket, []), 3),
             (some (c4RespPacket, []), 4)])).pending_requests) =
      ([],
       [{ kind := .orphaned_request, packet_info := c4ReqPacket, ntp_info := [] },
        { kind := .orphaned_response, packet_info := c4RespPacket, ntp_info := [] }],
       none))) :=
  ⟨by decide,
   C4_session_pairing "eth0" 2 0 c4ReqPacket c4RespPacket [] [] 0 1
     c4ReqPacket c4OtherReqPacket c4RespPacket [] [] [] 0 3 4
     (by decide) (by decide) (by decide) (by decide) (by decide) (by decide)
     (by decide) (by decide) (by decide) (by decide) (by decide)⟩

/-- Helper: the descending insertion used to model `ORDER BY last_seen
DESC` grows the list by one. -/
theorem length_insertByLastSeenDesc (r : NtpModels.NTPClientRow)
    (l : List NtpModels.NTPClientRow) :
    (Ingestion.insertByLastSeenDesc r l).length = l.length + 1 := by
  induction l with
  | nil => rfl
  | cons x xs ih =>
    unfold Ingestion.insertByLastSeenDesc
    split
    · simp [ih]
    · simp

/-- Helper: ordering the stored rows preserves their number. -/
theorem length_orderByLastSeenDesc (l : List NtpModels.NTPClientRow) :
    (Ingestion.orderByLastSeenDesc l).length = l.length := by
  induction l with
  | nil => rfl
  | cons x xs ih =>
    simp [Ingestion.orderByLastSeenDesc, List.foldr] at ih ⊢
    rw [length_insertByLastSeenDesc, ih]

/-- C5: with 25 stored rows and page size 10, page 1 returns 10 rows with
total_pages 3, has_next true and has_prev false; page 3 returns 5 rows
with has_next false and has_prev true; and any request with page below 1
or page size outside 1..100 is answered 400 by a computation that never
consults the store — the response is identical for every store. -/
theorem C5_pagination (rows : List NtpModels.NTPClientRow)
    (h25 : rows.length = 25) :
    (∃ clients, HistoryRoutes.get_clients_list (.ok rows) 1 10 "" "" =
        .ok clients
          { current_page := 1, page_size := 10, total_count := 25,
            total_pages := 3, has_next := true, has_prev := false,
            next_page := some 2, prev_page := none }
        ∧ clients.length = 10)
    ∧ (∃ clients, HistoryRoutes.get_clients_list (.ok rows) 3 10 "" "" =
        .ok clients
          { current_page := 3, page_size := 10, total_count := 25,
            total_pages := 3, has_next := false, has_prev := true,
            next_page := none, prev_page := some 2 }
        ∧ clients.length = 5)
    ∧ ∀ (db db₂ : Except String (List NtpModels.NTPClientRow))
        (page page_size : Int) (search_ip interface_name : String),
        page < 1 ∨ page_size < 1 ∨ page_size > 100 →
          (HistoryRoutes.get_clients_list db page page_size
              search_ip interface_name).status = 400
          ∧ HistoryRoutes.get_clients_list db page page_size
              search_ip interface_name =
            HistoryRoutes.get_clients_list db₂ page page_size
              search_ip interface_name := by
  have ht : PyStr.truthy (PyStr.trim "") = false := by decide
  refine ⟨?_, ?_, ?_⟩
  · simp [HistoryRoutes.get_clients_list, Ingestion.get_historical_clients,
      Ingestion.optTruthy, ht, HistoryRoutes.ceilDiv, h25,
      List.length_take, length_orderByLastSeenDesc]
  · simp [HistoryRoutes.get_clients_list, Ingestion.get_historical_clients,
      Ingestion.optTruthy, ht, HistoryRoutes.ceilDiv, h25,
      List.length_take, List.length_drop, length_orderByLastSeenDesc]
  · intro db db₂ page page_size search_ip interface_name h
    by_cases hp : page < 1
    · unfold HistoryRoutes.get_clients_list
      rw [if_pos hp, if_pos hp]
      exact ⟨rfl, rfl⟩
    · have hps : page_size < 1 ∨ page_size > 100 := by
        rcases h with h | h | h
        · exact absurd h hp
        · exact Or.inl h
        · exact Or.inr h
      unfold HistoryRoutes.get_clients_list
      rw [if_neg hp, if_neg hp, if_pos hps, if_pos hps]
      exact ⟨rfl, rfl⟩

/-- A concrete stored row used to witness the pagination property. -/
def c5SampleRow : NtpModels.NTPClientRow :=
  { client_ip := "10.0.0.1", client_port := 50000, server_ip := "10.0.0.2",
    server_port := 123, interface_name := "eth0", ntp_version := 4,
    stratum := some 2, precision := some (-20), root_delay := some 1,
    root_dispersion := some 1, reference_id := some "GPS",
    leap_indicator := some "no warning", poll_interval := some 6,
    reference_timestamp := some 100, originate_timestamp := some 101,
    receive_timestamp := some 102, transmit_timestamp := some 103,
    client_to_server_latency_seconds := some 1,
    server_processing_time_seconds := some 1,
    total_process_time_seconds := some 2, packet_length := some 48,
    session_timestamp := 1000, first_seen_timestamp := 900,
    last_seen_timestamp := 1000, session_count := 3 }

/-- A concrete store of 25 rows. -/
def c5SampleStore : List NtpModels.NTPClientRow := List.replicate 25 c5SampleRow

/-- Witness for C5 on a concrete 25-row store. -/
theorem C5_pagination_witness :
    c5SampleStore.length = 25
    ∧ ((∃ clients, HistoryRoutes.get_clients_list (.ok c5SampleStore) 1 10 "" "" =
        .ok clients
          { current_page := 1, page_size := 10, total_count := 25,
            total_pages := 3, has_next := true, has_prev := false,
            next_page := some 2, prev_page := none }
        ∧ clients.length = 10)
    ∧ (∃ clients, HistoryRoutes.get_clients_list (.ok c5SampleStore) 3 10 "" "" =
        .ok clients
          { current_page := 3, page_size := 10, total_count := 25,
            total_pages := 3, has_next := false, has_prev := true,
            next_page := none, prev_page := some 2 }
        ∧ clients.length = 5)
    ∧ ∀ (db db₂ : Except String (List NtpModels.NTPClientRow))
        (page page_size : Int) (search_ip interface_name : String),
        page < 1 ∨ page_size < 1 ∨ page_size > 100 →
          (HistoryRoutes.get_clients_list db page page_size
              search_ip interface_name).status = 400
          ∧ HistoryRoutes.get_clients_list db page page_size
              search_ip interface_name =
            HistoryRoutes.get_clients_list db₂ page page_size
              search_ip interface_name) :=
  ⟨by decide, C5_pagination c5SampleStore (by decide)⟩

/-- C10: every read query helper of the history store swallows storage
failures — whatever exception the underlying store raises,
get_historical_clients returns the empty page with count 0,
get_client_detail returns None and get_interface_statistics returns the
empty list — so with the database unavailable the client-list endpoint
still answers 200 with an empty list and the client-detail endpoint
answers 404, never 500. -/
theorem C10_read_helpers_swallow_errors :
    (∀ (e : String) (page page_size : Int) (search_ip interface_name : Option String),
        Ingestion.get_historical_clients (.error e) page page_size
          search_ip interface_name = ([], 0))
    ∧ (∀ (e client_ip : String),
        Ingestion.get_client_detail (.error e) client_ip = none)
    ∧ (∀ (e : String), Ingestion.get_interface_statistics (.error e) = [])
    ∧ (∀ (e : String) (page page_size : Int),
        1 ≤ page → 1 ≤ page_size → page_size ≤ 100 →
          ∃ pagination, HistoryRoutes.get_clients_list (.error e) page page_size "" "" =
            .ok [] pagination)
    ∧ (∀ (e client_ip : String), PyStr.truthy client_ip = true →
        PyStr.truthy (PyStr.trim client_ip) = true →
        HistoryRoutes.get_client_details_route (.error e) client_ip =
          .notFound ("Client " ++ PyStr.trim client_ip ++ " not found")) := by
  refine ⟨fun e page page_size sip iname => rfl, fun e ip => rfl, fun e => rfl,
    ?_, ?_⟩
  · intro e page page_size hp1 hp2 hp3
    have hp : ¬ page < 1 := by omega
    have hps : ¬ (page_size < 1 ∨ page_size > 100) := by omega
    refine ⟨{ current_page := page, page_size := page_size, total_count := 0,
              total_pages := 0, has_next := false, has_prev := page > 1,
              next_page := none,
              prev_page := if page > 1 then some (page - 1) else none }, ?_⟩
    unfold HistoryRoutes.get_clients_list
    rw [if_neg hp, if_neg hps]
    have hnn : ¬ (page < (0 : Int)) := by omega
    simp [Ingestion.get_historical_clients, hnn]
  · intro e client_ip h₁ h₂
    simp [HistoryRoutes.get_client_details_route, h₁, h₂,
      Ingestion.get_client_detail]

/-- Witness for C10 at a concrete storage error, page 1, page size 10,
and the client ip 10.0.0.1. -/
theorem C10_read_helpers_swallow_errors_witness :
    ((1 : Int) ≤ 1 ∧ (1 : Int) ≤ 10 ∧ (10 : Int) ≤ 100
      ∧ PyStr.truthy "10.0.0.1" = true
      ∧ PyStr.truthy (PyStr.trim "10.0.0.1") = true)
    ∧ (Ingestion.get_historical_clients (.error "db unavailable") 1 10 none none =
        ([], 0)
      ∧ Ingestion.get_client_detail (.error "db unavailable") "10.0.0.1" = none
      ∧ Ingestion.get_interface_statistics (.error "db unavailable") = []
      ∧ (∃ pagination,
          HistoryRoutes.get_clients_list (.error "db unavailable") 1 10 "" "" =
            .ok [] pagination)
      ∧ HistoryRoutes.get_client_details_route (.error "db unavailable") "10.0.0.1" =
          .notFound ("Client " ++ PyStr.trim "10.0.0.1" ++ " not found")) :=
  ⟨by decide,
   C10_read_helpers_swallow_errors.1 "db unavailable" 1 10 none none,
   C10_read_helpers_swallow_errors.2.1 "db unavailable" "10.0.0.1",
   C10_read_helpers_swallow_errors.2.2.1 "db unavailable",
   C10_read_helpers_swallow_errors.2.2.2.1 "db unavailable" 1 10
     (by decide) (by decide) (by decide),
   C10_read_helpers_swallow_errors.2.2.2.2 "db unavailable" "10.0.0.1"
     (by decide) (by decide)⟩

/-- A concrete ingested session: ip 10.0.0.1 on eth0, supplying a stratum
and a session timestamp. -/
def c2SessionA : NtpModels.SessionData :=
  { client_ip := some "10.0.0.1", interface_name := some "eth0",
    ntp_version := some 4, stratum := some 2, session_timestamp := some 100 }

/-- A second session for the same ip, supplying a precision but no
stratum, with a later session timestamp. -/
def c2SessionB : NtpModels.SessionData :=
  { client_ip := some "10.0.0.1", interface_name := some "eth0",
    precision := some (-20), session_timestamp := some 200 }

/-- C2 counterexample: two sessions with the same client ip in one batch,
ingested into a store that does not yet hold that ip, produce two stored
rows — each with session_count 1 — and raise the inserted counter by 2,
not the single row with session_count 2 the claim describes.  The lookup
that would have found the first row never sees it because the session
runs with autoflush disabled. -/
theorem C2_counterexample_same_batch_double_insert :
    Ingestion._process_batch [] [c2SessionA, c2SessionB] 500 =
      ([NtpModels.from_session_data c2SessionA 500,
        NtpModels.from_session_data c2SessionB 500], 2, 0)
    ∧ (Ingestion._process_batch [] [c2SessionA, c2SessionB] 500).1.length ≠ 1
    ∧ (NtpModels.from_session_data c2SessionA 500).session_count = 1
    ∧ (NtpModels.from_session_data c2SessionB 500).session_count = 1 := by
  refine ⟨by decide, by decide, by decide, by decide⟩

/-- C2 (amended): in one ingested batch of sessions carrying non-empty
client_ip and interface_name — (a) when the store already holds a row for
the shared client ip, two same-ip sessions update that one row twice:
session_count rises by 2, last_seen takes the second session timestamp,
each mutable field supplied by a session overwrites while absent fields
keep the prior value (the update function), and the identity columns
(client_ip, client_port, server_ip, server_port, interface_name) keep
their stored values; (b) when the store holds no row for the ip, the
same-ip pair is inserted twice — one row per session, each with
session_count 1, inserted counter + 2 — because the duplicate lookup does
not see the first, not-yet-flushed insert; two sessions with distinct new
ips likewise produce two rows with session_count 1 and inserted + 2. -/
theorem C2_ingestion_upsert_amended
    (r : NtpModels.NTPClientRow) (s1 s2 : NtpModels.SessionData)
    (ip : String) (now : Int)
    (hr : r.client_ip = ip)
    (h1 : s1.client_ip = some ip) (h2 : s2.client_ip = some ip)
    (hip : PyStr.truthy ip = true)
    (hi1 : PyStr.truthy (s1.interface_name.getD "") = true)
    (hi2 : PyStr.truthy (s2.interface_name.getD "") = true) :
    (Ingestion._process_batch [r] [s1, s2] now =
      ([NtpModels.update_from_session_data
          (NtpModels.update_from_session_data r s1 now) s2 now], 0, 2))
    ∧ (NtpModels.update_from_session_data
        (NtpModels.update_from_session_data r s1 now) s2 now).session_count =
        r.session_count + 2
    ∧ (NtpModels.update_from_session_data
        (NtpModels.update_from_session_data r s1 now) s2 now).last_seen_timestamp =
        NtpModels.parsedSessionTimestamp s2 now
    ∧ (NtpModels.update_from_session_data
        (NtpModels.update_from_session_data r s1 now) s2 now).client_ip = r.client_ip
    ∧ (NtpModels.update_from_session_data
        (NtpModels.update_from_session_data r s1 now) s2 now).client_port = r.client_port
    ∧ (NtpModels.update_from_session_data
        (NtpModels.update_from_session_data r s1 now) s2 now).server_ip = r.server_ip
    ∧ (NtpModels.update_from_session_data
        (NtpModels.update_from_session_data r s1 now) s2 now).server_port = r.server_port
    ∧ (NtpModels.update_from_session_data
        (NtpModels.update_from_session_data r s1 now) s2 now).interface_name =
        r.interface_name
    ∧ (Ingestion._process_batch [] [s1, s2] now =
        ([NtpModels.from_session_data s1 now, NtpModels.from_session_data s2 now],
         2, 0))
    ∧ (∀ (s : NtpModels.SessionData) (t : Int),
        (NtpModels.from_session_data s t).session_count = 1
        ∧ (NtpModels.from_session_data s t).last_seen_timestamp =
            NtpModels.parsedSessionTimestamp s t) := by
  refine ⟨?_, ?_, rfl, rfl, rfl, rfl, rfl, rfl, ?_, fun s t => ⟨rfl, rfl⟩⟩
  · simp [Ingestion._process_batch, Ingestion.processBatchGo, Ingestion.findByIp,
      Ingestion.updateFirstByIp, h1, h2, hr, hip, hi1, hi2,
      NtpModels.update_from_session_data]
  · simp [NtpModels.update_from_session_data]
    omega
  · simp [Ingestion._process_batch, Ingestion.processBatchGo, Ingestion.findByIp,
      h1, h2, hip, hi1, hi2]

/-- A concrete stored row holding ip 10.0.0.1 with session_count 5. -/
def c2ExistingRow : NtpModels.NTPClientRow :=
  { client_ip := "10.0.0.1", client_port := 40000, server_ip := "10.0.0.9",
    server_port := 123, interface_name := "eth1", ntp_version := 3,
    stratum := some 3, precision := none, root_delay := none,
    root_dispersion := none, reference_id := none, leap_indicator := none,
    poll_interval := none, reference_timestamp := none,
    originate_timestamp := none, receive_timestamp := none,
    transmit_timestamp := none, client_to_server_latency_seconds := none,
    server_processing_time_seconds := none, total_process_time_seconds := none,
    packet_length := none, session_timestamp := 50, first_seen_timestamp := 50,
    last_seen_timestamp := 50, session_count := 5 }

/-- Witness for the amended C2 at the concrete row and sessions. -/
theorem C2_ingestion_upsert_amended_witness :
    (c2ExistingRow.client_ip = "10.0.0.1"
      ∧ c2SessionA.client_ip = some "10.0.0.1"
      ∧ c2SessionB.client_ip = some "10.0.0.1"
      ∧ PyStr.truthy "10.0.0.1" = true
      ∧ PyStr.truthy (c2SessionA.interface_name.getD "") = true
      ∧ PyStr.truthy (c2SessionB.interface_name.getD "") = true)
    ∧ ((Ingestion._process_batch [c2ExistingRow] [c2SessionA, c2SessionB] 500 =
      ([NtpModels.update_from_session_data
          (NtpModels.update_from_session_data c2ExistingRow c2SessionA 500)
          c2SessionB 500], 0, 2))
    ∧ (NtpModels.update_from_session_data
        (NtpModels.update_from_session_data c2ExistingRow c2SessionA 500)
        c2SessionB 500).session_count = c2ExistingRow.session_count + 2
    ∧ (NtpModels.update_from_session_data
        (NtpModels.update_from_session_data c2ExistingRow c2SessionA 500)
        c2SessionB 500).last_seen_timestamp =
        NtpModels.parsedSessionTimestamp c2SessionB 500
    ∧ (NtpModels.update_from_session_data
        (NtpModels.update_from_session_data c2ExistingRow c2SessionA 500)
        c2SessionB 500).client_ip = c2ExistingRow.client_ip
    ∧ (NtpModels.update_from_session_data
        (NtpModels.update_from_session_data c2ExistingRow c2SessionA 500)
        c2SessionB 500).client_port = c2ExistingRow.client_port
    ∧ (NtpModels.update_from_session_data
        (NtpModels.update_from_session_data c2ExistingRow c2SessionA 500)
        c2SessionB 500).server_ip = c2ExistingRow.server_ip
    ∧ (NtpModels.update_from_session_data
        (NtpModels.update_from_session_data c2ExistingRow c2SessionA 500)
        c2SessionB 500).server_port = c2ExistingRow.server_port
    ∧ (NtpModels.update_from_session_data
        (NtpModels.update_from_session_data c2ExistingRow c2SessionA 500)
        c2SessionB 500).interface_name = c2ExistingRow.interface_name
    ∧ (Ingestion._process_batch [] [c2SessionA, c2SessionB] 500 =
        ([NtpModels.from_session_data c2SessionA 500,
          NtpModels.from_session_data c2SessionB 500], 2, 0))
    ∧ (∀ (s : NtpModels.SessionData) (t : Int),
        (NtpModels.from_session_data s t).session_count = 1
        ∧ (NtpModels.from_session_data s t).last_seen_timestamp =
            NtpModels.parsedSessionTimestamp s t)) :=
  ⟨by decide,
   C2_ingestion_upsert_amended c2ExistingRow c2SessionA c2SessionB "10.0.0.1" 500
     (by decide) (by decide) (by decide) (by decide) (by decide) (by decide)⟩

/-- C1: for every cleanup request whose body supplies an integer days in
1..365 the handler does delete exactly the rows whose last_seen is
strictly older than now minus days — but it then answers 500, not the
claimed 200 with deleted_count: building the success body evaluates
datetime.utcnow() and the module never imports datetime, so the NameError
falls into the catch-all.  A days value of the wrong JSON type or outside
1..365 yields 400 with the store untouched, as the claim says. -/
theorem C1_cleanup_route_deletes_but_500 (db : List NtpModels.NTPClientRow)
    (now d : Int) (h1 : 1 ≤ d) (h2 : d ≤ 365) :
    HistoryRoutes.cleanup_route true (some (.jint d)) db now =
      { status := 500,
        db := (Ingestion.cleanup_old_records db d now).1,
        deleted_count := none,
        error := some (.nameError "datetime") }
    ∧ (∀ (db₂ : List NtpModels.NTPClientRow) (now₂ d₂ : Int),
        (d₂ < 1 ∨ d₂ > 365) →
        HistoryRoutes.cleanup_route true (some (.jint d₂)) db₂ now₂ =
          { status := 400, db := db₂, deleted_count := none, error := none })
    ∧ (∀ (db₂ : List NtpModels.NTPClientRow) (now₂ : Int),
        HistoryRoutes.cleanup_route true (some .jother) db₂ now₂ =
          { status := 400, db := db₂, deleted_count := none, error := none }) := by
  have hdt : HistoryRoutes.evalModuleName "datetime" =
      .error (.nameError "datetime") := rfl
  refine ⟨?_, ?_, fun db₂ now₂ => rfl⟩
  · have hno : ¬ (d < 1 ∨ d > 365) := by omega
    simp [HistoryRoutes.cleanup_route, hno, hdt]
  · intro db₂ now₂ d₂ h
    simp only [HistoryRoutes.cleanup_route, Option.getD, if_true]
    rw [if_pos h]

/-- A stored row whose last_seen is far in the past. -/
def c1OldRow : NtpModels.NTPClientRow :=
  { c2ExistingRow with client_ip := "10.0.0.7", last_seen_timestamp := 0 }

/-- A stored row seen 100 seconds before the witness request time. -/
def c1FreshRow : NtpModels.NTPClientRow :=
  { c2ExistingRow with client_ip := "10.0.0.8", last_seen_timestamp := 9999900 }

/-- Witness for C1: days 30 at time 10000000 on a store of one stale and
one fresh row — the handler deletes the stale row and answers 500. -/
theorem C1_cleanup_route_deletes_but_500_witness :
    ((1 : Int) ≤ 30 ∧ (30 : Int) ≤ 365)
    ∧ (HistoryRoutes.cleanup_route true (some (.jint 30))
        [c1OldRow, c1FreshRow] 10000000 =
      { status := 500,
        db := (Ingestion.cleanup_old_records [c1OldRow, c1FreshRow] 30 10000000).1,
        deleted_count := none,
        error := some (.nameError "datetime") }
    ∧ (∀ (db₂ : List NtpModels.NTPClientRow) (now₂ d₂ : Int),
        (d₂ < 1 ∨ d₂ > 365) →
        HistoryRoutes.cleanup_route true (some (.jint d₂)) db₂ now₂ =
          { status := 400, db := db₂, deleted_count := none, error := none })
    ∧ (∀ (db₂ : List NtpModels.NTPClientRow) (now₂ : Int),
        HistoryRoutes.cleanup_route true (some .jother) db₂ now₂ =
          { status := 400, db := db₂, deleted_count := none, error := none })) :=
  ⟨by decide,
   C1_cleanup_route_deletes_but_500 [c1OldRow, c1FreshRow] 10000000 30
     (by decide) (by decide)⟩

/-- C9: every export request with a valid format (json or csv, case
folded) and a limit in 1..10000 is answered 500 — the response
construction evaluates datetime.utcnow(), the module never imports
datetime, and the NameError is caught by the handler catch-all — so no
such export request ever returns the documented 200. -/
theorem C9_export_always_500 (fmt : String) (limit : Int)
    (search_ip interface_name : Option String)
    (db : Except String (List NtpModels.NTPClientRow))
    (hfmt : PyStr.lower fmt = "json" ∨ PyStr.lower fmt = "csv")
    (h1 : 1 ≤ limit) (h2 : limit ≤ 10000) :
    HistoryRoutes.export_clients_route true (some fmt) (some limit)
        search_ip interface_name db =
      { status := 500, error := some (.nameError "datetime") } := by
  have hdt : HistoryRoutes.evalModuleName "datetime" =
      .error (.nameError "datetime") := rfl
  have hl : ¬ (limit < 1 ∨ limit > 10000) := by omega
  rcases hfmt with h | h <;>
    simp [HistoryRoutes.export_clients_route, h, hl, hdt]

/-- Witness for C9: format json with the default limit 1000 on an empty
store. -/
theorem C9_export_always_500_witness :
    ((PyStr.lower "json" = "json" ∨ PyStr.lower "json" = "csv")
      ∧ (1 : Int) ≤ 1000 ∧ (1000 : Int) ≤ 10000)
    ∧ HistoryRoutes.export_clients_route true (some "json") (some 1000)
        none none (.ok []) =
      { status := 500, error := some (.nameError "datetime") } :=
  ⟨by decide,
   C9_export_always_500 "json" 1000 none none (.ok [])
     (by decide) (by decide) (by decide)⟩
